import Mathlib

/-!
Shallow embedding of the data loading / filtering / aggregation pipeline of
`streamlit_app.py` (a COVID-19 dashboard script), together with theorems
checking the repository's specification against it.

Modelling choices:
* a CSV source is a header (list of column names) plus rows, each row an
  association list from column name to raw cell text; a column absent from a
  row's association list models an empty cell (pandas NaN);
* calendar dates are modelled as `Int` day ordinals; `pd.to_datetime` with
  `errors='coerce'` becomes a cell parser returning `Option Int` (`none` is
  NaT); numeric cells become `Option ℚ` (`none` is NaN);
* the two pure library cell parsers (date parsing on one cell, numeric
  parsing on one cell) are passed to `load_data` as explicit arguments;
* pandas semantics embedded directly: `Series.isin` is never true on a null
  entry, comparison of NaT against a date is false, `dropna(how='all')`
  drops a row only when every one of its four cells is null, `groupby`
  ignores null keys and sorts group keys, and the reducers `sum` / `mean` /
  `max` skip null values (`sum` of an empty value set is 0, `mean` and
  `max` of an empty value set are NaN).
-/

/-- One observation row after projection and date parsing: the four columns
kept by the script (`usecols`, line 17 of `streamlit_app.py`).  `none`
encodes a pandas null (NaT for `date`, NaN otherwise). -/
structure Record where
  date : Option Int
  location : Option String
  new_deaths_smoothed : Option ℚ
  people_vaccinated_per_hundred : Option ℚ
deriving Repr, DecidableEq

/-- A loaded table: an ordered collection of records (row order is the
source row order). -/
def Dataset := List Record
deriving Repr, DecidableEq

instance : Membership Record Dataset := inferInstanceAs (Membership Record (List Record))

/-- Raw delimited text source: header row and data rows; each data row maps a
column name to its (non-empty) cell text. -/
structure RawCSV where
  header : List String
  rows : List (List (String × String))
deriving Repr, DecidableEq

/-- The structured load failure raised by `pd.read_csv` when `usecols`
requests columns the source does not have. -/
inductive LoadError where
  | missingColumns (cols : List String)
deriving Repr, DecidableEq

/-- The fixed projected column set (`usecols`, line 17). -/
def usecols : List String :=
  ["date", "location", "new_deaths_smoothed", "people_vaccinated_per_hundred"]

/-- `pd.read_csv(src, usecols=cols)`: if any requested column is absent from
the source header the call raises (modelled as `Except.error`); otherwise it
returns the projection of the source onto the requested columns. -/
def read_csv (src : RawCSV) (cols : List String) : Except LoadError RawCSV :=
  if (cols.filter (fun c => ! src.header.contains c)).isEmpty then
    Except.ok { header := cols,
                rows := src.rows.map (fun row => row.filter (fun kv => cols.contains kv.1)) }
  else
    Except.error (LoadError.missingColumns (cols.filter (fun c => ! src.header.contains c)))

/-- Build one `Record` from one projected raw row: `location` is kept as raw
text (absent cell ↦ null), `date` goes through the date parser
(`pd.to_datetime(..., errors='coerce')`, line 24), the two numeric columns
through the numeric parser; a parse failure or absent cell yields null. -/
def rowToRecord (parseD : String → Option Int) (parseN : String → Option ℚ)
    (row : List (String × String)) : Record :=
  { date := (row.lookup "date").bind parseD
    location := row.lookup "location"
    new_deaths_smoothed := (row.lookup "new_deaths_smoothed").bind parseN
    people_vaccinated_per_hundred := (row.lookup "people_vaccinated_per_hundred").bind parseN }

/-- `load_data` (lines 15–25): read the source restricted to `usecols`, then
parse the `date` column.  The function body contains no exception handling:
a `read_csv` failure propagates out unchanged. -/
def load_data (parseD : String → Option Int) (parseN : String → Option ℚ)
    (src : RawCSV) : Except LoadError Dataset :=
  match read_csv src usecols with
  | Except.error err => Except.error err
  | Except.ok df => Except.ok (df.rows.map (rowToRecord parseD parseN))

/-- A concrete date parser used for closed instances: a cell parses iff it is
the decimal text of an integer day ordinal. -/
def parseDate0 (s : String) : Option Int := s.toInt?

/-- A concrete numeric parser used for closed instances. -/
def parseNum0 (s : String) : Option ℚ := (s.toInt?).map (fun n => (n : ℚ))

/-- `sorted(df['location'].dropna().unique())` (line 39): the distinct
non-null locations of the loaded table, sorted. -/
def all_countries (df : Dataset) : List String :=
  ((List.filterMap Record.location df).dedup).insertionSort (fun a b => a ≤ b)

/-- `df['location'].isin(selected)` on one row: a null location is never a
member of the selected set. -/
def locationIsin (selected : List String) (r : Record) : Bool :=
  match r.location with
  | some l => selected.contains l
  | none => false

/-- `df['date'] >= start` on one row: comparison against NaT is false. -/
def dateGe (startDate : Int) (r : Record) : Bool :=
  match r.date with
  | some d => decide (startDate ≤ d)
  | none => false

/-- `df['date'] <= end` on one row: comparison against NaT is false. -/
def dateLe (endDate : Int) (r : Record) : Bool :=
  match r.date with
  | some d => decide (d ≤ endDate)
  | none => false

/-- The boolean filter mask of line 53:
`df['location'].isin(selected_countries) & (df['date'] >= start) & (df['date'] <= end)`. -/
def mask (selected : List String) (startDate endDate : Int) (r : Record) : Bool :=
  locationIsin selected r && dateGe startDate r && dateLe endDate r

/-- `dropna(how='all')` row predicate (line 54): a row is dropped only when
all four of its cells are null. -/
def isAllNull (r : Record) : Bool :=
  r.date.isNone && r.location.isNone
    && r.new_deaths_smoothed.isNone && r.people_vaccinated_per_hundred.isNone

/-- `data = df.loc[mask, expected].dropna(how='all')` (line 54): keep the
rows selected by the mask, then drop those that are null in every column. -/
def data (df : Dataset) (selected : List String) (startDate endDate : Int) : Dataset :=
  List.filter (fun r => ! isAllNull r) (List.filter (mask selected startDate endDate) df)

/-- `data.groupby("location")` group keys: the distinct non-null locations,
sorted (pandas `groupby` drops null keys and sorts keys by default). -/
def groupKeys (view : Dataset) : List String :=
  ((List.filterMap Record.location view).dedup).insertionSort (fun a b => a ≤ b)

/-- The non-null values of column `col` inside the group of `loc`: exactly
the values a skipna pandas reducer consumes. -/
def groupValues (view : Dataset) (loc : String) (col : Record → Option ℚ) : List ℚ :=
  List.filterMap col (List.filter (fun r => r.location == some loc) view)

/-- `cumulative = data.groupby("location")['new_deaths_smoothed'].sum().reset_index()`
(line 108): pandas `sum` skips nulls and returns 0 on an empty value set. -/
def cumulative (view : Dataset) : List (String × ℚ) :=
  (groupKeys view).map (fun l => (l, (groupValues view l Record.new_deaths_smoothed).sum))

/-- `data.groupby("location")["new_deaths_smoothed"].mean()` (lines 196–200):
pandas `mean` skips nulls and returns NaN (here `none`) on an empty value
set. -/
def map_data_deaths (view : Dataset) : List (String × Option ℚ) :=
  (groupKeys view).map (fun l =>
    (l, match groupValues view l Record.new_deaths_smoothed with
        | [] => none
        | vs => some (vs.sum / (vs.length : ℚ))))

/-- `data.groupby("location")["people_vaccinated_per_hundred"].max()`
(lines 205–209): pandas `max` skips nulls and returns NaN (here `none`) on
an empty value set. -/
def map_data_vax (view : Dataset) : List (String × Option ℚ) :=
  (groupKeys view).map (fun l =>
    (l, (groupValues view l Record.people_vaccinated_per_hundred).max?))

/-- A concrete uploaded source whose header lacks the `location` column. -/
def srcNoLocation : RawCSV :=
  { header := ["date", "new_deaths_smoothed", "people_vaccinated_per_hundred"],
    rows := [[("date", "0"), ("new_deaths_smoothed", "5")]] }

/-- A concrete fully populated row. -/
def recFull : Record := ⟨some 0, some "A", some 5, some 10⟩

/-- A concrete row with location and date present but both numeric cells
null. -/
def recNumericNull : Record := ⟨some 0, some "A", none, none⟩

/-- A concrete row with a parsed date but a null location. -/
def recNullLocation : Record := ⟨some 0, none, some 5, some 10⟩

/-- A concrete row whose `new_deaths_smoothed` cell is null. -/
def recDeathsNull : Record := ⟨some 0, some "A", none, some 1⟩

/-- A concrete row whose `people_vaccinated_per_hundred` cell is null. -/
def recVaxNull : Record := ⟨some 0, some "B", some 2, none⟩

/-- A concrete row whose date cell failed to parse. -/
def recNoDate : Record := ⟨none, some "A", some 1, some 2⟩

/-- A concrete filtered view whose only group ("A") has all-null
`new_deaths_smoothed` values. -/
def viewA : Dataset := data [recDeathsNull] ["A"] 0 0

/-- A concrete filtered view whose only group ("B") has all-null
`people_vaccinated_per_hundred` values. -/
def viewB : Dataset := data [recVaxNull] ["B"] 0 0

/-- A row selected by the mask has a non-null location. -/
theorem mask_location_isSome {sel : List String} {s e : Int} {r : Record}
    (h : mask sel s e r = true) : r.location.isSome = true := by
  cases hl : r.location with
  | none => simp [mask, locationIsin, hl] at h
  | some l => rfl

/-- A row selected by the mask has a non-null (successfully parsed) date. -/
theorem mask_date_isSome {sel : List String} {s e : Int} {r : Record}
    (h : mask sel s e r = true) : r.date.isSome = true := by
  cases hd : r.date with
  | none => simp [mask, dateGe, hd] at h
  | some d => rfl

/-- A row selected by the mask is not null in every column. -/
theorem mask_not_allNull {sel : List String} {s e : Int} {r : Record}
    (h : mask sel s e r = true) : isAllNull r = false := by
  have hl := mask_location_isSome h
  cases hloc : r.location with
  | none => rw [hloc] at hl; simp at hl
  | some l => simp [isAllNull, hloc]

/-- The `dropna(how='all')` cleanup after the mask removes nothing. -/
theorem data_eq_filter_mask (df : Dataset) (sel : List String) (s e : Int) :
    data df sel s e = List.filter (mask sel s e) df := by
  unfold data
  rw [List.filter_filter]
  apply List.filter_congr
  intro r _
  cases hm : mask sel s e r with
  | false => simp
  | true => simp [mask_not_allNull hm]

/-- The mask holds exactly on rows with a selected location and an in-range
date, both null-rejecting. -/
theorem mask_iff {sel : List String} {s e : Int} {r : Record} :
    mask sel s e r = true ↔
      (∃ l, r.location = some l ∧ l ∈ sel) ∧ ∃ d, r.date = some d ∧ s ≤ d ∧ d ≤ e := by
  cases hl : r.location with
  | none => simp [mask, locationIsin, hl]
  | some l =>
    cases hd : r.date with
    | none => simp [mask, dateGe, hd]
    | some d =>
      simp [mask, locationIsin, dateGe, dateLe, hl, hd, List.elem_iff, and_assoc]

/-- Membership in the filtered result is membership in the source plus the
mask. -/
theorem mem_data_iff {df : Dataset} {sel : List String} {s e : Int} {r : Record} :
    r ∈ data df sel s e ↔ r ∈ df ∧ mask sel s e r = true := by
  rw [data_eq_filter_mask]
  exact List.mem_filter

/-- Membership in `all_countries` is having a non-null occurrence as a
location in the table. -/
theorem mem_all_countries {df : Dataset} {l : String} :
    l ∈ all_countries df ↔ some l ∈ List.map Record.location df := by
  unfold all_countries
  rw [(List.perm_insertionSort _ _).mem_iff, List.mem_dedup, List.mem_filterMap]
  constructor
  · rintro ⟨r, hr, hloc⟩
    exact List.mem_map.mpr ⟨r, hr, hloc⟩
  · intro h
    rcases List.mem_map.mp h with ⟨r, hr, hloc⟩
    exact ⟨r, hr, hloc⟩

/-- Claim C1, counterexample: on a concrete uploaded source missing the
`location` column, `load_data` does not return a result with an invalid /
empty Dataset: the missing-column failure raised inside `pd.read_csv`
propagates out of `load_data` (there is no exception handling in its body),
contradicting "load never raises an exception past its own boundary". -/
theorem load_data_missing_location_cex :
    load_data parseDate0 parseNum0 srcNoLocation
      = Except.error (LoadError.missingColumns ["location"]) := by
  rfl

/-- Claim C1, amended: `load_data` performs no error recovery.  Whenever the
source lacks the required `location` column, the projected read raises a
missing-column error that propagates out of `load_data`, and `location` is
reported among the missing columns; consequently `load_data` never returns a
Dataset built from a source missing that column. -/
theorem load_data_missing_column_error (parseD : String → Option Int)
    (parseN : String → Option ℚ) (src : RawCSV)
    (h : src.header.contains "location" = false) :
    ∃ missing, load_data parseD parseN src = Except.error (LoadError.missingColumns missing)
      ∧ "location" ∈ missing := by
  refine ⟨usecols.filter (fun c => ! src.header.contains c), ?_, ?_⟩
  · have hm : "location" ∈ usecols.filter (fun c => ! src.header.contains c) :=
      List.mem_filter.mpr ⟨by decide, by rw [h]; rfl⟩
    have hne : (usecols.filter (fun c => ! src.header.contains c)).isEmpty ≠ true := by
      intro habs
      rw [List.isEmpty_iff] at habs
      exact List.ne_nil_of_mem hm habs
    unfold load_data read_csv
    rw [if_neg hne]
  · exact List.mem_filter.mpr ⟨by decide, by rw [h]; rfl⟩

/-- Witness for the amended C1 theorem at the concrete source
`srcNoLocation`. -/
theorem load_data_missing_column_error_witness :
    ∃ missing, load_data parseDate0 parseNum0 srcNoLocation
      = Except.error (LoadError.missingColumns missing) ∧ "location" ∈ missing :=
  load_data_missing_column_error parseDate0 parseNum0 srcNoLocation (by rfl)

/-- Claim C2: the filtered result contains exactly the source rows whose
location is a member of the selected set and whose date lies in the closed
interval from `s` to `e`, both endpoints inclusive; no other row appears. -/
theorem mem_data_iff_criteria (df : Dataset) (sel : List String) (s e : Int) (r : Record) :
    r ∈ data df sel s e ↔
      r ∈ df ∧ (∃ l, r.location = some l ∧ l ∈ sel) ∧ ∃ d, r.date = some d ∧ s ≤ d ∧ d ≤ e := by
  rw [mem_data_iff, mask_iff]

/-- Claim C3, counterexample: a concrete row whose location and date are
present but whose numeric cells are both null is retained by the filter: it
appears in the FilteredView, contradicting "a row whose location and date
are present but whose numeric fields are all null never appears". -/
theorem allnull_numeric_row_retained_cex :
    data [recNumericNull] ["A"] 0 0 = [recNumericNull] := by
  decide

/-- Claim C3, amended: the post-filter cleanup (`dropna(how='all')`) drops a
row only when it is null in all four projected columns, not merely in the
non-key value columns: a row is in the filtered result iff it is a source
row, satisfies the mask, and is not null in every column. -/
theorem mem_data_iff_mask_not_allNull (df : Dataset) (sel : List String) (s e : Int)
    (r : Record) :
    r ∈ data df sel s e ↔ r ∈ df ∧ mask sel s e r = true ∧ isAllNull r = false := by
  unfold data
  rw [List.mem_filter, List.mem_filter, Bool.not_eq_true']
  tauto

/-- Claim C4, counterexample: aggregating the concrete FilteredView whose
only group ("A") has all-null `new_deaths_smoothed` values, the group-by
sum (`cumulative`, line 108) yields the entry ("A", 0) — the number zero —
contradicting "never the number zero". -/
theorem cumulative_allnull_group_zero_cex :
    cumulative viewA = [("A", 0)]
      ∧ groupValues viewA "A" Record.new_deaths_smoothed = [] := by
  decide

/-- Claim C4, amended: every reducer consumes only the non-null values of
its group.  For a group whose target-column values are all null, the `mean`
aggregation (deaths map) and the `max` aggregation (vaccination map) yield
an explicit null, but the `sum` aggregation (`cumulative`) yields the
number zero. -/
theorem aggregate_null_handling (view : Dataset) (l : String) (hl : l ∈ groupKeys view) :
    ((l, (groupValues view l Record.new_deaths_smoothed).sum) ∈ cumulative view) ∧
    (groupValues view l Record.new_deaths_smoothed = [] →
      (l, (0 : ℚ)) ∈ cumulative view ∧ (l, (none : Option ℚ)) ∈ map_data_deaths view) ∧
    (groupValues view l Record.people_vaccinated_per_hundred = [] →
      (l, (none : Option ℚ)) ∈ map_data_vax view) := by
  refine ⟨List.mem_map.mpr ⟨l, hl, rfl⟩, ?_, ?_⟩
  · intro h
    constructor
    · exact List.mem_map.mpr ⟨l, hl, by rw [h]; rfl⟩
    · exact List.mem_map.mpr ⟨l, hl, by rw [h]⟩
  · intro h
    exact List.mem_map.mpr ⟨l, hl, by rw [h]; rfl⟩

/-- Witness for the amended C4 theorem: the all-null deaths group of `viewA`
sums to zero and means to null, and the all-null vaccination group of
`viewB` maxes to null. -/
theorem aggregate_null_handling_witness :
    (("A", (0 : ℚ)) ∈ cumulative viewA ∧ ("A", (none : Option ℚ)) ∈ map_data_deaths viewA)
    ∧ ("B", (none : Option ℚ)) ∈ map_data_vax viewB :=
  ⟨(aggregate_null_handling viewA "A" (by decide)).2.1 (by decide),
   (aggregate_null_handling viewB "B" (by decide)).2.2 (by decide)⟩

/-- Claim C5, counterexample: for the concrete one-row table whose row has a
parsed date but a null location, filtering with all distinct locations and
the full date span returns nothing, although the row's date parsed and the
row is not all-null — contradicting "returns exactly the rows of D whose
date parsed successfully, minus any all-null-value rows". -/
theorem filter_full_span_null_location_cex :
    data [recNullLocation] (all_countries [recNullLocation]) 0 0 = []
      ∧ recNullLocation.date = some 0 ∧ isAllNull recNullLocation = false := by
  decide

/-- Claim C5, amended: filtering with all distinct locations of the table
and an interval covering its full date span returns exactly the rows whose
date parsed successfully AND whose location is non-null (a null-location
row is excluded even though its date parsed; all-null rows are a special
case of null-location rows). -/
theorem data_full_span_all_countries (df : Dataset) (s e : Int)
    (hspan : ∀ r ∈ df, ∀ d, r.date = some d → s ≤ d ∧ d ≤ e) :
    data df (all_countries df) s e
      = List.filter (fun r => r.date.isSome && r.location.isSome) df := by
  rw [data_eq_filter_mask]
  apply List.filter_congr
  intro r hr
  cases hl : r.location with
  | none => simp [mask, locationIsin, hl]
  | some l =>
    cases hd : r.date with
    | none => simp [mask, dateGe, hd, hl]
    | some d =>
      have hmem : l ∈ all_countries df :=
        mem_all_countries.mpr (List.mem_map.mpr ⟨r, hr, hl⟩)
      have hb := hspan r hr d hd
      simp [mask, locationIsin, dateGe, dateLe, hl, hd, List.elem_iff, hmem, hb.1, hb.2]

/-- Witness for the amended C5 theorem at a concrete one-row table. -/
theorem data_full_span_all_countries_witness :
    data [recFull] (all_countries [recFull]) 0 0
      = List.filter (fun r => r.date.isSome && r.location.isSome) [recFull] :=
  data_full_span_all_countries [recFull] 0 0 (by
    intro r hr d hd
    have hr' : r = recFull := by
      have hmem : r ∈ ([recFull] : List Record) := hr
      simpa using hmem
    subst hr'
    simp [recFull] at hd
    omega)

/-- Claim C6: a row whose date cell failed to parse (null date marker) is
excluded from every FilteredView, whatever the requested interval. -/
theorem null_date_excluded (df : Dataset) (sel : List String) (s e : Int) (r : Record)
    (h : r.date = none) : r ∉ data df sel s e := by
  intro hmem
  have hm := (mem_data_iff.mp hmem).2
  have hds := mask_date_isSome hm
  rw [h] at hds
  simp at hds

/-- Witness for C6 at a concrete unparsed-date row. -/
theorem null_date_excluded_witness : recNoDate ∉ data [recNoDate] ["A"] 0 0 :=
  null_date_excluded [recNoDate] ["A"] 0 0 recNoDate (by rfl)

/-- Claim C7: filtering with an empty location set returns the empty
FilteredView for every table and every interval. -/
theorem data_empty_locations (df : Dataset) (s e : Int) : data df [] s e = [] := by
  rw [data_eq_filter_mask]
  apply List.filter_eq_nil_iff.mpr
  intro r _
  cases hl : r.location with
  | none => simp [mask, locationIsin, hl]
  | some l => simp [mask, locationIsin, hl]

/-- Claim C8: the filtered result is a sublist of the source table, so the
filter is stable: rows appear in their original relative order and are never
reordered. -/
theorem data_sublist (df : Dataset) (sel : List String) (s e : Int) :
    (data df sel s e).Sublist df := by
  unfold data
  exact (List.filter_sublist _).trans (List.filter_sublist _)

/-- Claim C9: the filter is deterministic and mutation-free — equal inputs
give equal outputs (in this embedding a Dataset is an immutable value, so
the call cannot change it). -/
theorem data_deterministic (df df' : Dataset) (sel sel' : List String) (s s' e e' : Int)
    (hdf : df = df') (hsel : sel = sel') (hs : s = s') (he : e = e') :
    data df sel s e = data df' sel' s' e' := by
  subst hdf; subst hsel; subst hs; subst he
  rfl

/-- Witness for C9 at concrete identical inputs. -/
theorem data_deterministic_witness :
    data [recFull] ["A"] 0 0 = data [recFull] ["A"] 0 0 :=
  data_deterministic [recFull] [recFull] ["A"] ["A"] 0 0 0 0 rfl rfl rfl rfl

/-- Claim C10: every row selected by the mask has a non-null location and a
non-null parsed date, so the `dropna(how='all')` cleanup removes nothing:
the filter with the cleanup step equals the filter without it. -/
theorem data_cleanup_noop (df : Dataset) (sel : List String) (s e : Int) :
    data df sel s e = List.filter (mask sel s e) df
      ∧ ∀ r ∈ List.filter (mask sel s e) df,
          r.location.isSome = true ∧ r.date.isSome = true := by
  refine ⟨data_eq_filter_mask df sel s e, ?_⟩
  intro r hr
  have hm := (List.mem_filter.mp hr).2
  exact ⟨mask_location_isSome hm, mask_date_isSome hm⟩

/-- Witness for C10 at a concrete table and criteria, with the non-null
facts discharged at the concrete selected row. -/
theorem data_cleanup_noop_witness :
    data [recFull] ["A"] 0 0 = List.filter (mask ["A"] 0 0) [recFull]
      ∧ (recFull.location.isSome = true ∧ recFull.date.isSome = true) :=
  ⟨(data_cleanup_noop [recFull] ["A"] 0 0).1,
   (data_cleanup_noop [recFull] ["A"] 0 0).2 recFull (by decide)⟩
